import Mathlib

/- Shallow embedding of the execution-tracking protocol client of the
   comfyui_workflow_exec repository.

   Embedded source files:
   - src/comfyui_client/message_config.py    : JsonMessageType, BinaryMessageType,
     MessageHandlingPolicy
   - src/comfyui_client/comfyui_websocket.py : typed client ComfyUIWebSocketClient
     (definitions carry the websocket_ marker)
   - src/comfyui_client/comfyui_webscoket.py : standalone client variant, file name
     spelled as in the repository (definitions carry the webscoket_ marker)
   - src/comfyui_client/comfyui_client.py    : ComfyUIClientBase.wait_for_queue_empty
   Functions that the two client files define identically, namely
   _is_execution_complete, _handle_binary_message and _process_history_outputs,
   are embedded once and shared.

   Conventions of the embedding:
   - Python byte strings are lists of naturals.
   - A JSON payload dictionary is a record of optional typed fields; a missing
     key and a JSON null both map to none, matching the behaviour of dict.get.
   - A Python dictionary keyed by node identifier is an association list with
     in-place update on an existing key, matching insertion-order semantics.
   - Every handler method returns, as an Option RunError, the exception it
     raises; handlers that only write log lines return none.
   - The WebSocket receive loop consumes a list of receive outcomes; the
     blocking recv call is represented by the events of that list.
-/

/-- Typed view of the data dictionary carried by a structured JSON message.
Each field mirrors one key the handlers read with dict.get; none stands for
an absent key or a JSON null. -/
structure MsgData where
  prompt_id : Option String := none
  node : Option String := none
  value : Option Int := none
  max : Option Int := none
  exception_message : Option String := none
  node_id : Option String := none
  node_type : Option String := none
  display_node : Option String := none
  deriving Repr, DecidableEq

/-- A parsed structured JSON envelope, mirroring WSMessage of comfy_schema.py:
a type string and a data dictionary (the type key may be absent). -/
structure WSMessage where
  type_ : Option String := none
  data : MsgData := {}
  deriving Repr, DecidableEq

/-- One raw WebSocket frame: either text (some parsed envelope, or none when
json.loads raises JSONDecodeError) or binary bytes. -/
inductive RawFrame where
  | text (parsed : Option WSMessage)
  | binary (payload : List Nat)
  deriving Repr, DecidableEq

/-- One outcome of a blocking ws.recv call inside the receive loop of
execute_workflow: a frame, a timeout (WebSocketTimeoutException), a dropped
connection (WebSocketConnectionClosedException), or another receive error. -/
inductive RecvEvent where
  | frame (f : RawFrame)
  | timeoutSentinel
  | connectionClosed
  | recvError
  deriving Repr, DecidableEq

/-- JsonMessageType of message_config.py: the closed enumeration of structured
message kinds. -/
inductive JsonMessageType where
  | status
  | execution_start
  | execution_cached
  | executing
  | executed
  | progress
  | progress_state
  | execution_error
  | execution_interrupted
  | execution_success
  deriving Repr, DecidableEq

/-- The enum lookup JsonMessageType(msg_type_str): some kind for the ten known
type strings, none when the Python constructor would raise ValueError. -/
def JsonMessageType.ofString? (s : String) : Option JsonMessageType :=
  match s with
  | "status" => some .status
  | "execution_start" => some .execution_start
  | "execution_cached" => some .execution_cached
  | "executing" => some .executing
  | "executed" => some .executed
  | "progress" => some .progress
  | "progress_state" => some .progress_state
  | "execution_error" => some .execution_error
  | "execution_interrupted" => some .execution_interrupted
  | "execution_success" => some .execution_success
  | _ => none

/-- BinaryMessageType of message_config.py. -/
inductive BinaryMessageType where
  | previewImage
  | metadataPreviewImage
  | textMessage
  deriving Repr, DecidableEq

/-- The enum lookup BinaryMessageType(event_type_value): tags 1, 2, 3 are
known; any other value makes the Python constructor raise ValueError. -/
def BinaryMessageType.ofNat? (v : Nat) : Option BinaryMessageType :=
  match v with
  | 1 => some .previewImage
  | 2 => some .metadataPreviewImage
  | 3 => some .textMessage
  | _ => none

/-- MessageHandlingPolicy of message_config.py: PRODUCTION observes only the
four key kinds, DEVELOPMENT observes every kind. -/
inductive MessageHandlingPolicy where
  | production
  | development
  deriving Repr, DecidableEq

/-- The value list of each MessageHandlingPolicy member, as written in
message_config.py. -/
def MessageHandlingPolicy.value : MessageHandlingPolicy → List JsonMessageType
  | .production =>
      [.execution_error, .execution_interrupted, .execution_success, .executing]
  | .development =>
      [.status, .execution_start, .execution_cached, .executing, .executed,
       .progress, .progress_state, .execution_error, .execution_interrupted,
       .execution_success]

/-- The membership test msg_type in self.message_policy.value. -/
def MessageHandlingPolicy.observes (p : MessageHandlingPolicy)
    (t : JsonMessageType) : Bool :=
  p.value.contains t

/-- The production_mode flag of the client that selected this policy: both
attributes are derived from the same constructor argument. -/
def MessageHandlingPolicy.productionMode : MessageHandlingPolicy → Bool
  | .production => true
  | .development => false

/-- Rendering of a Python value inside an f-string: None prints as None. -/
def pyStr : Option String → String
  | none => "None"
  | some s => s

/-- Exceptions that can cross the boundary of one run, by Python type. -/
inductive RunError where
  | runtimeError (msg : String)
  | zeroDivisionError
  | valueError (msg : String)
  | workflowConnectionError
  | webSocketError
  deriving Repr, DecidableEq

/-- struct.unpack of a big-endian unsigned 32-bit integer from the first four
bytes; only ever applied to lists of length at least four. -/
def beU32 : List Nat → Nat
  | a :: b :: c :: d :: _ => ((a * 256 + b) * 256 + c) * 256 + d
  | _ => 0

/-- Classification of what _handle_binary_message does with one binary frame.
Every constructor corresponds to a return path that only writes log lines. -/
inductive BinOutcome where
  | tooShort
  | unknownTag (v : Nat)
  | skippedProduction
  | previewImage (hasImageType : Bool)
  | incompleteMetadata
  | metadataPreview (metadataLen : Nat)
  | incompleteText
  | textMessage (nodeIdLen : Nat)
  deriving Repr, DecidableEq

/-- _handle_preview_image: logs the 4-byte image format tag when present. -/
def handle_preview_image (data : List Nat) : BinOutcome :=
  if 4 ≤ data.length then .previewImage true else .previewImage false

/-- _handle_metadata_preview_image: a payload shorter than 4 bytes, or shorter
than 4 plus the declared metadata length, returns without effect. -/
def handle_metadata_preview_image (data : List Nat) : BinOutcome :=
  if data.length < 4 then .incompleteMetadata
  else
    let metadata_len := beU32 (data.take 4)
    if data.length < 4 + metadata_len then .incompleteMetadata
    else .metadataPreview metadata_len

/-- _handle_text_message: a payload shorter than 4 bytes, or shorter than 4
plus the declared node-id length, returns without effect. -/
def handle_text_message (data : List Nat) : BinOutcome :=
  if data.length < 4 then .incompleteText
  else
    let node_id_len := beU32 (data.take 4)
    if data.length < 4 + node_id_len then .incompleteText
    else .textMessage node_id_len

/-- _handle_binary_message, identical in both client files: frames shorter
than 4 bytes return at once; unknown tags are dropped (the ValueError from the
enum lookup is caught); in production mode recognized tags are skipped;
otherwise the tag-specific handler runs. No path raises or touches run
state. -/
def handle_binary_message (production_mode : Bool) (message : List Nat) :
    BinOutcome :=
  if message.length < 4 then .tooShort
  else
    let event_type_value := beU32 (message.take 4)
    match BinaryMessageType.ofNat? event_type_value with
    | none => .unknownTag event_type_value
    | some event_type =>
      if production_mode then .skippedProduction
      else
        match event_type with
        | .previewImage => handle_preview_image (message.drop 4)
        | .metadataPreviewImage => handle_metadata_preview_image (message.drop 4)
        | .textMessage => handle_text_message (message.drop 4)

/-- _handle_status_message of comfyui_webscoket.py: logs the remaining queue
count; no state change, nothing raised. -/
def handle_status_message (_data : MsgData) : Option RunError := none

/-- _handle_execution_start: logs the prompt id only. -/
def handle_execution_start (_data : MsgData) : Option RunError := none

/-- _handle_execution_cached: logs the cached node list when the prompt id
matches; no state change either way. -/
def handle_execution_cached (_data : MsgData) (_prompt_id : String) :
    Option RunError := none

/-- _handle_executing of comfyui_webscoket.py: logs progress or completion
when the prompt id matches; never raises and never mutates state. -/
def webscoket_handle_executing (_data : MsgData) (_prompt_id : String) :
    Option RunError := none

/-- _handle_executed: logs the per-node completion when the prompt id
matches. -/
def handle_executed (_data : MsgData) (_prompt_id : String) :
    Option RunError := none

/-- _handle_progress of comfyui_webscoket.py: formats
value / max_val * 100 with max_val = data.get("max", 100); Python raises
ZeroDivisionError when that divisor is zero, otherwise the handler only
logs. -/
def handle_progress (data : MsgData) : Option RunError :=
  if data.max.getD 100 = 0 then some .zeroDivisionError else none

/-- _handle_progress_state: logs each node state; nothing raised. -/
def handle_progress_state (_data : MsgData) : Option RunError := none

/-- The message of the RuntimeError raised by _handle_execution_error of
comfyui_webscoket.py. -/
def execution_error_message (data : MsgData) : String :=
  "执行错误: " ++ pyStr data.exception_message

/-- _handle_execution_error of comfyui_webscoket.py: logs the error details
and raises RuntimeError, without consulting the prompt id of the tracked
run. -/
def handle_execution_error (data : MsgData) : Option RunError :=
  some (.runtimeError (execution_error_message data))

/-- _handle_execution_interrupted: logs and raises RuntimeError, without
consulting the prompt id of the tracked run. -/
def handle_execution_interrupted (_data : MsgData) : Option RunError :=
  some (.runtimeError "执行被中断")

/-- _handle_execution_success: logs the prompt id only. -/
def handle_execution_success (_data : MsgData) : Option RunError := none

/-- _handle_json_message of comfyui_webscoket.py: looks the type string up in
the enum (an unknown or absent type is logged and dropped), drops kinds the
policy does not observe, then dispatches to the per-kind handler. -/
def handle_json_message (policy : MessageHandlingPolicy) (message : WSMessage)
    (prompt_id : String) : Option RunError :=
  match message.type_ with
  | none => none
  | some msg_type_str =>
    match JsonMessageType.ofString? msg_type_str with
    | none => none
    | some msg_type =>
      if policy.observes msg_type then
        match msg_type with
        | .status => handle_status_message message.data
        | .execution_start => handle_execution_start message.data
        | .execution_cached => handle_execution_cached message.data prompt_id
        | .executing => webscoket_handle_executing message.data prompt_id
        | .executed => handle_executed message.data prompt_id
        | .progress => handle_progress message.data
        | .progress_state => handle_progress_state message.data
        | .execution_error => handle_execution_error message.data
        | .execution_interrupted => handle_execution_interrupted message.data
        | .execution_success => handle_execution_success message.data
      else none

/-- _handle_ws_message of comfyui_websocket.py (the typed client): only the
kinds executing, execution_start and execution_cached are examined, each
handler only logs, and a failed WSExecutingData validation is logged as a
warning; no path raises or mutates state. -/
def websocket_handle_ws_message (ws_msg : WSMessage) (_prompt_id : String) :
    Option RunError :=
  match ws_msg.type_ with
  | some "executing" => none
  | some "execution_start" => none
  | some "execution_cached" => none
  | _ => none

/-- _is_execution_complete, identical in both client files: true exactly for a
text frame whose JSON has type executing, the tracked prompt id, and a null
(or absent) node. -/
def is_execution_complete (message : RawFrame) (prompt_id : String) : Bool :=
  match message with
  | .text (some msg) =>
      if msg.type_ == some "executing" then
        msg.data.prompt_id == some prompt_id && msg.data.node.isNone
      else false
  | .text none => false
  | .binary _ => false

/-- _process_message of comfyui_webscoket.py: a text frame that fails JSON
decoding is logged and dropped; a parsed one goes to _handle_json_message; a
binary frame goes to _handle_binary_message, whose outcome is log-only. -/
def webscoket_process_message (policy : MessageHandlingPolicy)
    (message : RawFrame) (prompt_id : String) : Option RunError :=
  match message with
  | .text none => none
  | .text (some msg) => handle_json_message policy msg prompt_id
  | .binary payload =>
      let _ := handle_binary_message policy.productionMode payload
      none

/-- _process_message of comfyui_websocket.py: same shape, but text frames go
to _handle_ws_message (ValidationError and JSONDecodeError are caught and
logged). -/
def websocket_process_message (production_mode : Bool) (message : RawFrame)
    (prompt_id : String) : Option RunError :=
  match message with
  | .text none => none
  | .text (some msg) => websocket_handle_ws_message msg prompt_id
  | .binary payload =>
      let _ := handle_binary_message production_mode payload
      none

/-- A folder-class / subfolder / filename artifact reference, the argument
triple of get_image. -/
structure ImageRef where
  filename : String
  subfolder : String
  folder_type : String
  deriving Repr, DecidableEq

/-- One per-node output entry of a history record; the images key is present
iff the field is some. -/
structure NodeOutput where
  images : Option (List ImageRef) := none
  deriving Repr, DecidableEq

/-- The history entry of one prompt id: its outputs dictionary as an ordered
association list of node id to node output. -/
structure APIHistoryEntry where
  outputs : List (String × NodeOutput) := []
  deriving Repr, DecidableEq

/-- Lookup in an association-list dictionary. -/
def dictGet? {α : Type} (m : List (String × α)) (k : String) : Option α :=
  match m with
  | [] => none
  | p :: rest => if p.1 = k then some p.2 else dictGet? rest k

/-- Assignment d[k] = v on an association-list dictionary: replaces the first
entry with key k in place (Python dictionaries hold each key once), appends
otherwise. -/
def dictSet {α : Type} (m : List (String × α)) (k : String) (v : α) :
    List (String × α) :=
  match m with
  | [] => [(k, v)]
  | p :: rest => if p.1 = k then (k, v) :: rest else p :: dictSet rest k v

/-- Result of _process_history_outputs: the mutated output_images dictionary
together with the list of artifact references on which get_image was
attempted, in call order. -/
structure HistoryMergeResult where
  output_images : List (String × List (List Nat))
  fetched : List ImageRef
  deriving Repr, DecidableEq

/-- _process_history_outputs, identical in both client files: for every node
of the history outputs that carries an images list, every reference is passed
to get_image (a failed fetch is logged and skipped, modeled by the fetch
oracle returning none), and when at least one fetch succeeded the node entry
of output_images is assigned the fetched list, replacing any existing
entry. -/
def process_history_outputs (fetch : ImageRef → Option (List Nat)) :
    List (String × NodeOutput) → List (String × List (List Nat)) →
    List ImageRef → HistoryMergeResult
  | [], output_images, fetched => ⟨output_images, fetched⟩
  | (node_id, node_output) :: rest, output_images, fetched =>
    match node_output.images with
    | none => process_history_outputs fetch rest output_images fetched
    | some images =>
      let images_output := images.filterMap fetch
      let output_images2 :=
        if images_output.isEmpty then output_images
        else dictSet output_images node_id images_output
      process_history_outputs fetch rest output_images2 (fetched ++ images)

/-- The node identifiers to which _process_history_outputs assigns a fetched
list: nodes bearing an images list for which at least one fetch succeeds. -/
def assignedNodes (fetch : ImageRef → Option (List Nat)) :
    List (String × NodeOutput) → List String
  | [] => []
  | (node_id, node_output) :: rest =>
    match node_output.images with
    | none => assignedNodes fetch rest
    | some images =>
      if (images.filterMap fetch).isEmpty then assignedNodes fetch rest
      else node_id :: assignedNodes fetch rest

/-- The server-side collaborators of one run: whether a reconnect attempt
succeeds, the history response for the tracked prompt id (none when the id is
absent from the response), and the artifact fetch oracle (none models a
failed download, which the code logs and skips). -/
structure Env where
  reconnectOk : Bool
  history : Option APIHistoryEntry
  fetch : ImageRef → Option (List Nat)

/-- How the receive loop of execute_workflow ends. -/
inductive LoopExit where
  | completed
  | dispatchError (e : RunError)
  | reconnectFailed (e : RunError)
  | outOfEvents
  deriving Repr, DecidableEq

/-- The receive-loop summary: how it ended, how many reconnect attempts
happened, how many receive events were consumed. -/
structure LoopResult where
  exit : LoopExit
  reconnects : Nat
  consumed : Nat
  deriving Repr, DecidableEq

/-- Account one consumed receive event. -/
def bump (r : LoopResult) : LoopResult := { r with consumed := r.consumed + 1 }

/-- The receive loop of comfyui_websocket.py execute_workflow: a timeout means
loop again; a closed connection triggers connect() and loops again, and a
failed connect raises WorkflowConnectionError; another receive error breaks
the loop (the code then proceeds to the history fetch); a frame is processed
and the loop breaks when _is_execution_complete holds. An exhausted event
list stands for a loop that is still blocked in recv. -/
def websocket_receive_loop (prompt_id : String) (reconnectOk : Bool) :
    List RecvEvent → LoopResult
  | [] => ⟨.outOfEvents, 0, 0⟩
  | .timeoutSentinel :: rest =>
      bump (websocket_receive_loop prompt_id reconnectOk rest)
  | .connectionClosed :: rest =>
      if reconnectOk then
        let r := bump (websocket_receive_loop prompt_id reconnectOk rest)
        { r with reconnects := r.reconnects + 1 }
      else ⟨.reconnectFailed .workflowConnectionError, 1, 1⟩
  | .recvError :: _ => ⟨.completed, 0, 1⟩
  | .frame f :: rest =>
      match websocket_process_message false f prompt_id with
      | some e => ⟨.dispatchError e, 0, 1⟩
      | none =>
        if is_execution_complete f prompt_id then ⟨.completed, 0, 1⟩
        else bump (websocket_receive_loop prompt_id reconnectOk rest)

/-- The receive loop of comfyui_webscoket.py execute_workflow: identical
control flow, but frames are dispatched through _handle_json_message under
the policy, and a failed reconnect raises the raw websocket exception. -/
def webscoket_receive_loop (policy : MessageHandlingPolicy)
    (prompt_id : String) (reconnectOk : Bool) : List RecvEvent → LoopResult
  | [] => ⟨.outOfEvents, 0, 0⟩
  | .timeoutSentinel :: rest =>
      bump (webscoket_receive_loop policy prompt_id reconnectOk rest)
  | .connectionClosed :: rest =>
      if reconnectOk then
        let r := bump (webscoket_receive_loop policy prompt_id reconnectOk rest)
        { r with reconnects := r.reconnects + 1 }
      else ⟨.reconnectFailed .webSocketError, 1, 1⟩
  | .recvError :: _ => ⟨.completed, 0, 1⟩
  | .frame f :: rest =>
      match webscoket_process_message policy f prompt_id with
      | some e => ⟨.dispatchError e, 0, 1⟩
      | none =>
        if is_execution_complete f prompt_id then ⟨.completed, 0, 1⟩
        else bump (webscoket_receive_loop policy prompt_id reconnectOk rest)

/-- Overall outcome of one execute_workflow call. -/
inductive RunOutcome where
  | ok (outputs : List (String × List (List Nat)))
  | err (e : RunError)
  | stillWaiting
  deriving Repr, DecidableEq

/-- True exactly on a successful outcome. -/
def RunOutcome.isOk : RunOutcome → Bool
  | .ok _ => true
  | _ => false

/-- True exactly on a raised RuntimeError. -/
def RunOutcome.isRuntimeError : RunOutcome → Bool
  | .err (.runtimeError _) => true
  | _ => false

/-- Summary of one execute_workflow call: its outcome, the number of
reconnect attempts, whether get_history was reached, and how many receive
events were consumed. -/
structure RunResult where
  outcome : RunOutcome
  reconnects : Nat
  historyFetched : Bool
  framesConsumed : Nat
  deriving Repr, DecidableEq

/-- The tail of execute_workflow of comfyui_webscoket.py (the standalone
client) after the receive loop: get_history returns the plain JSON
dictionary of the response, a prompt id missing from it raises ValueError,
and otherwise _process_history_outputs merges the history entry into the
(empty at this point) output_images dictionary; a dispatch or reconnect
exception propagates before any history fetch. -/
def webscoket_finish_run (prompt_id : String) (env : Env) (r : LoopResult) :
    RunResult :=
  match r.exit with
  | .completed =>
    match env.history with
    | none =>
        ⟨.err (.valueError ("Prompt ID " ++ prompt_id ++ " 不存在于历史记录中")),
         r.reconnects, true, r.consumed⟩
    | some entry =>
        ⟨.ok (process_history_outputs env.fetch entry.outputs [] []).output_images,
         r.reconnects, true, r.consumed⟩
  | .dispatchError e => ⟨.err e, r.reconnects, false, r.consumed⟩
  | .reconnectFailed e => ⟨.err e, r.reconnects, false, r.consumed⟩
  | .outOfEvents => ⟨.stillWaiting, r.reconnects, false, r.consumed⟩

/-- The tail of execute_workflow of comfyui_websocket.py (the typed client)
after the receive loop: here get_history returns APIHistory, a pydantic
RootModel, and the membership test of prompt_id not in history falls back to
BaseModel iteration, which yields pairs of field name and value; a prompt id
string never equals such a pair, so the test holds for every response
whatever the server history contains, and the ValueError is raised after
every completed loop. The success branch of the source (entry lookup and
output merge) is unreachable in this client, so the history content of the
environment is not consulted. -/
def websocket_finish_run (prompt_id : String) (_env : Env) (r : LoopResult) :
    RunResult :=
  match r.exit with
  | .completed =>
      ⟨.err (.valueError ("Prompt ID " ++ prompt_id ++ " 不存在于历史记录中")),
       r.reconnects, true, r.consumed⟩
  | .dispatchError e => ⟨.err e, r.reconnects, false, r.consumed⟩
  | .reconnectFailed e => ⟨.err e, r.reconnects, false, r.consumed⟩
  | .outOfEvents => ⟨.stillWaiting, r.reconnects, false, r.consumed⟩

/-- APIWorkflowTicket as execute_workflow of comfyui_websocket.py reads it:
the per-node error dictionary (an absent or empty dictionary is falsy) and
the top-level error rendered to its message (None and the empty string are
falsy). -/
structure APIWorkflowTicket where
  node_errors : List (String × String) := []
  error : Option String := none
  deriving Repr, DecidableEq

/-- Python truthiness of the optional top-level error string. -/
def pyTruthyStr : Option String → Bool
  | none => false
  | some s => !(s == "")

/-- execute_workflow of comfyui_websocket.py, after queue submission: a truthy
node_errors or error field on the ticket raises RuntimeError before the
receive loop starts, so no frame is received or dispatched; otherwise the
receive loop runs and the history reconciliation follows. -/
def websocket_execute_workflow (ticket : APIWorkflowTicket)
    (prompt_id : String) (env : Env) (trace : List RecvEvent) : RunResult :=
  if !ticket.node_errors.isEmpty then
    ⟨.err (.runtimeError "工作流验证失败"), 0, false, 0⟩
  else if pyTruthyStr ticket.error then
    ⟨.err (.runtimeError "工作流提交失败"), 0, false, 0⟩
  else
    websocket_finish_run prompt_id env
      (websocket_receive_loop prompt_id env.reconnectOk trace)

/-- execute_workflow of comfyui_webscoket.py, after queue submission: this
variant never inspects the submission ticket; it runs the receive loop under
the policy and then reconciles against history. -/
def webscoket_execute_workflow (policy : MessageHandlingPolicy)
    (prompt_id : String) (env : Env) (trace : List RecvEvent) : RunResult :=
  webscoket_finish_run prompt_id env
    (webscoket_receive_loop policy prompt_id env.reconnectOk trace)

/-- One poll of get_queue_info inside wait_for_queue_empty: the lengths of
queue_running and queue_pending, or a raised request error. -/
inductive PollResult where
  | ok (running pending : Nat)
  | pollError
  deriving Repr, DecidableEq

/-- How one iteration body of wait_for_queue_empty ends, before the enclosing
except clause is applied. -/
inductive IterExit where
  | brk
  | raisedTimeout
  | looped
  deriving Repr, DecidableEq

/-- Python truthiness of the optional max_wait number: None and 0 are falsy. -/
def pyTruthyNat : Option Nat → Bool
  | none => false
  | some n => !(n == 0)

/-- The try block of one wait_for_queue_empty iteration
(ComfyUIClientBase.wait_for_queue_empty of comfyui_client.py; the copy in
comfyui_webscoket.py is identical): a failed queue poll is an exception; a
total below min_queue_num breaks; past max_wait a TimeoutError is raised;
otherwise sleep and loop. -/
def wait_iter_body (min_queue_num : Nat) (max_wait : Option Nat)
    (elapsed : Nat) (p : PollResult) : IterExit :=
  match p with
  | .pollError => .looped
  | .ok running pending =>
    if running + pending < min_queue_num then .brk
    else if pyTruthyNat max_wait && decide (max_wait.getD 0 < elapsed) then
      .raisedTimeout
    else .looped

/-- Outcome of wait_for_queue_empty over a finite list of polls. -/
inductive WaitOutcome where
  | queueFree
  | stillWaiting
  deriving Repr, DecidableEq

/-- wait_for_queue_empty: each iteration polls the queue at some elapsed time.
The while loop wraps the whole body in try / except Exception, so both a
failed poll and the TimeoutError raised by the body itself are caught, logged
and followed by sleep and another iteration; only the break on a free queue
leaves the loop. An exhausted poll list stands for a loop that is still
polling. -/
def wait_for_queue_empty (min_queue_num : Nat) (max_wait : Option Nat) :
    List (Nat × PollResult) → WaitOutcome
  | [] => .stillWaiting
  | (elapsed, p) :: rest =>
    match wait_iter_body min_queue_num max_wait elapsed p with
    | .brk => .queueFree
    | .raisedTimeout => wait_for_queue_empty min_queue_num max_wait rest
    | .looped => wait_for_queue_empty min_queue_num max_wait rest

/-- A text frame of kind executing with the given payload. -/
def execFrame (data : MsgData) : RawFrame :=
  .text (some { type_ := some "executing", data := data })

/-- A text frame of kind execution_error with the given payload. -/
def errorFrame (data : MsgData) : RawFrame :=
  .text (some { type_ := some "execution_error", data := data })

/-- A frame is progress-safe when it is not a progress event with a zero max
divisor; every other frame dispatches identically under both policies. -/
def progressMaxOk : RecvEvent → Bool
  | .frame (.text (some msg)) =>
    match msg.type_ with
    | none => true
    | some s =>
      match JsonMessageType.ofString? s with
      | some .progress => !(msg.data.max.getD 100 == 0)
      | _ => true
  | _ => true

/-- A busy queue snapshot: combined running plus pending count at or above
the admission floor. -/
def pollBusy (min_queue_num : Nat) : PollResult → Bool
  | .ok running pending => decide (min_queue_num ≤ running + pending)
  | .pollError => true

/-- Demonstration artifact reference used by concrete evaluations. -/
def demoRef : ImageRef := ⟨"ComfyUI_00001.png", "", "output"⟩

/-- Demonstration fetch oracle: the demonstration reference downloads to the
single byte 99, everything else fails. -/
def demoFetch : ImageRef → Option (List Nat) :=
  fun r => if r = demoRef then some [99] else none

/-- Demonstration environment: reconnect succeeds, history holds one image
output for node 9, fetch is the demonstration oracle. -/
def demoEnv : Env :=
  ⟨true, some ⟨[("9", ⟨some [demoRef]⟩)]⟩, demoFetch⟩

set_option maxRecDepth 4000

/- Shared helper lemmas. -/

/-- The RuntimeError message of the execution-error handler is never empty:
it always starts with the fixed prefix text. -/
theorem execution_error_message_ne_empty (d : MsgData) :
    execution_error_message d ≠ "" := by
  unfold execution_error_message
  intro h
  have hlen := congrArg String.length h
  rw [String.length_append] at hlen
  have h1 : "执行错误: ".length = 6 := rfl
  have h0 : ("" : String).length = 0 := rfl
  rw [h1, h0] at hlen
  omega

/-- One receive-loop step of the typed client on a timeout sentinel. -/
theorem ws_loop_timeout (pid : String) (rok : Bool) (rest : List RecvEvent) :
    websocket_receive_loop pid rok (.timeoutSentinel :: rest)
      = bump (websocket_receive_loop pid rok rest) := rfl

/-- One receive-loop step of the typed client on a closed connection when the
reconnect succeeds: one reconnect is accounted and the loop resumes. -/
theorem ws_loop_closed_true (pid : String) (rest : List RecvEvent) :
    websocket_receive_loop pid true (.connectionClosed :: rest)
      = ⟨(websocket_receive_loop pid true rest).exit,
         (websocket_receive_loop pid true rest).reconnects + 1,
         (websocket_receive_loop pid true rest).consumed + 1⟩ := rfl

/-- A terminal executing frame (matching prompt id, null node) completes the
receive loop of the typed client at once. -/
theorem ws_loop_terminal (pid : String) (d : MsgData) (rest : List RecvEvent)
    (rok : Bool) (h1 : d.prompt_id = some pid) (h2 : d.node = none) :
    websocket_receive_loop pid rok (.frame (execFrame d) :: rest)
      = ⟨.completed, 0, 1⟩ := by
  have hp : websocket_process_message false (execFrame d) pid = none := rfl
  have hc : is_execution_complete (execFrame d) pid = true := by
    simp [is_execution_complete, execFrame, h1, h2]
  simp only [websocket_receive_loop, hp, hc, if_true]

/-- Scenario with a timeout prefix, then one dropped connection, then the
terminal frame: the loop completes with exactly one reconnect. -/
theorem ws_loop_scenario_c (pre : List RecvEvent) (pid : String) (d : MsgData)
    (rest : List RecvEvent)
    (hpre : ∀ e ∈ pre, e = RecvEvent.timeoutSentinel)
    (h1 : d.prompt_id = some pid) (h2 : d.node = none) :
    websocket_receive_loop pid true
        (pre ++ RecvEvent.connectionClosed :: .frame (execFrame d) :: rest)
      = ⟨.completed, 1, pre.length + 2⟩ := by
  induction pre with
  | nil =>
    rw [List.nil_append, ws_loop_closed_true, ws_loop_terminal pid d rest true h1 h2]
    rfl
  | cons e pre ih =>
    have he := hpre e (List.mem_cons_self e pre)
    have hpre2 : ∀ x ∈ pre, x = RecvEvent.timeoutSentinel :=
      fun x hx => hpre x (List.mem_cons_of_mem e hx)
    subst he
    rw [List.cons_append, ws_loop_timeout, ih hpre2]
    simp [bump, List.length_cons]

/-- A progress-safe frame dispatches identically under both policies: the
kinds dropped by the production policy have log-only handlers, except a
progress event with a zero max divisor. -/
theorem dispatch_policy_eq (f : RawFrame) (pid : String)
    (h : progressMaxOk (.frame f) = true) :
    webscoket_process_message .development f pid
      = webscoket_process_message .production f pid := by
  cases f with
  | binary payload => rfl
  | text parsed =>
    cases parsed with
    | none => rfl
    | some msg =>
      obtain ⟨ty, d⟩ := msg
      cases ty with
      | none => rfl
      | some s =>
        simp only [webscoket_process_message, progressMaxOk] at h ⊢
        cases hof : JsonMessageType.ofString? s with
        | none => simp [handle_json_message, hof]
        | some t =>
          rw [hof] at h
          cases t with
          | progress =>
            have h0 : d.max.getD 100 ≠ 0 := by simpa using h
            simp [handle_json_message, hof, MessageHandlingPolicy.observes,
              MessageHandlingPolicy.value, handle_progress, h0]
          | status => simp [handle_json_message, hof, MessageHandlingPolicy.observes,
              MessageHandlingPolicy.value, handle_status_message]
          | execution_start => simp [handle_json_message, hof,
              MessageHandlingPolicy.observes, MessageHandlingPolicy.value,
              handle_execution_start]
          | execution_cached => simp [handle_json_message, hof,
              MessageHandlingPolicy.observes, MessageHandlingPolicy.value,
              handle_execution_cached]
          | executing => simp [handle_json_message, hof,
              MessageHandlingPolicy.observes, MessageHandlingPolicy.value]
          | executed => simp [handle_json_message, hof,
              MessageHandlingPolicy.observes, MessageHandlingPolicy.value,
              handle_executed]
          | progress_state => simp [handle_json_message, hof,
              MessageHandlingPolicy.observes, MessageHandlingPolicy.value,
              handle_progress_state]
          | execution_error => simp [handle_json_message, hof,
              MessageHandlingPolicy.observes, MessageHandlingPolicy.value]
          | execution_interrupted => simp [handle_json_message, hof,
              MessageHandlingPolicy.observes, MessageHandlingPolicy.value]
          | execution_success => simp [handle_json_message, hof,
              MessageHandlingPolicy.observes, MessageHandlingPolicy.value]

/-- The receive loop of the standalone client computes the same summary under
both policies on a progress-safe trace. -/
theorem receive_loop_policy_eq (pid : String) (rok : Bool)
    (trace : List RecvEvent) (h : ∀ e ∈ trace, progressMaxOk e = true) :
    webscoket_receive_loop .development pid rok trace
      = webscoket_receive_loop .production pid rok trace := by
  induction trace with
  | nil => rfl
  | cons e rest ih =>
    have hrest : ∀ x ∈ rest, progressMaxOk x = true :=
      fun x hx => h x (List.mem_cons_of_mem e hx)
    have ihr := ih hrest
    cases e with
    | timeoutSentinel => simp only [webscoket_receive_loop, ihr]
    | recvError => rfl
    | connectionClosed =>
      cases rok with
      | false => rfl
      | true => simp only [webscoket_receive_loop, ihr, if_true]
    | frame f =>
      have hd := dispatch_policy_eq f pid (h _ (List.mem_cons_self _ rest))
      simp only [webscoket_receive_loop, hd, ihr]

/-- Reading the key just assigned on an association-list dictionary. -/
theorem dictGet_dictSet_self {α : Type} (m : List (String × α)) (k : String)
    (v : α) : dictGet? (dictSet m k v) k = some v := by
  induction m with
  | nil => simp [dictSet, dictGet?]
  | cons p rest ih =>
    by_cases hk : p.1 = k
    · simp [dictSet, hk, dictGet?]
    · simp [dictSet, hk, dictGet?, ih]

/-- Assignment of one key leaves the lookup of any other key unchanged. -/
theorem dictGet_dictSet_ne {α : Type} (m : List (String × α)) (k k2 : String)
    (v : α) (h : k2 ≠ k) : dictGet? (dictSet m k v) k2 = dictGet? m k2 := by
  have h2 : ¬ (k = k2) := fun hh => h hh.symm
  induction m with
  | nil => simp [dictSet, dictGet?, h2]
  | cons p rest ih =>
    by_cases hk : p.1 = k
    · simp [dictSet, hk, dictGet?, h2]
    · simp [dictSet, hk, dictGet?, ih]

/-- Assigning a nonempty value preserves all-values-nonempty. -/
theorem dictSet_all_nonempty (m : List (String × List (List Nat)))
    (k : String) (v : List (List Nat))
    (hm : m.all (fun p => !p.2.isEmpty) = true) (hv : (!v.isEmpty) = true) :
    (dictSet m k v).all (fun p => !p.2.isEmpty) = true := by
  induction m with
  | nil => simp [dictSet, hv]
  | cons q qs ih =>
    simp only [List.all_cons, Bool.and_eq_true] at hm
    by_cases hq : q.1 = k
    · simp [dictSet, hq, List.all_cons, hv, hm.2]
    · simp [dictSet, hq, List.all_cons, hm.1, ih hm.2]

/-- History reconciliation only ever assigns nonempty fetched lists, so
all-values-nonempty of the output dictionary is preserved. -/
theorem process_history_all_nonempty (fetch : ImageRef → Option (List Nat))
    (outs : List (String × NodeOutput))
    (init : List (String × List (List Nat))) (facc : List ImageRef)
    (h : init.all (fun p => !p.2.isEmpty) = true) :
    ((process_history_outputs fetch outs init facc).output_images.all
      (fun p => !p.2.isEmpty)) = true := by
  induction outs generalizing init facc with
  | nil => exact h
  | cons p rest ih =>
    obtain ⟨node_id, nout⟩ := p
    cases him : nout.images with
    | none => simp only [process_history_outputs, him]; exact ih _ _ h
    | some images =>
      by_cases hemp : (images.filterMap fetch).isEmpty
      · simp only [process_history_outputs, him, if_pos hemp]; exact ih _ _ h
      · simp only [process_history_outputs, him, if_neg hemp]
        exact ih _ _ (dictSet_all_nonempty _ _ _ h (by simp [hemp]))

/-- History reconciliation processes a concatenation of node lists by
processing the two parts in order. -/
theorem process_history_append (fetch : ImageRef → Option (List Nat))
    (l1 l2 : List (String × NodeOutput))
    (init : List (String × List (List Nat))) (facc : List ImageRef) :
    process_history_outputs fetch (l1 ++ l2) init facc
      = process_history_outputs fetch l2
          (process_history_outputs fetch l1 init facc).output_images
          (process_history_outputs fetch l1 init facc).fetched := by
  induction l1 generalizing init facc with
  | nil => rfl
  | cons p rest ih =>
    obtain ⟨nid, nout⟩ := p
    cases him : nout.images with
    | none => simp [process_history_outputs, him, ih]
    | some images => simp [process_history_outputs, him, ih]

/-- A node entry whose key is outside the assigned-node list keeps its value
from the accumulated outputs through reconciliation. -/
theorem process_history_preserve (fetch : ImageRef → Option (List Nat))
    (outs : List (String × NodeOutput))
    (init : List (String × List (List Nat))) (facc : List ImageRef)
    (nid : String) (h : nid ∉ assignedNodes fetch outs) :
    dictGet? (process_history_outputs fetch outs init facc).output_images nid
      = dictGet? init nid := by
  induction outs generalizing init facc with
  | nil => rfl
  | cons p rest ih =>
    obtain ⟨node_id, nout⟩ := p
    cases him : nout.images with
    | none =>
      simp only [assignedNodes, him] at h
      simp only [process_history_outputs, him]
      exact ih _ _ h
    | some images =>
      by_cases hemp : (images.filterMap fetch).isEmpty
      · simp only [assignedNodes, him, if_pos hemp] at h
        simp only [process_history_outputs, him, if_pos hemp]
        exact ih _ _ h
      · simp only [assignedNodes, him, if_neg hemp] at h
        have hne : nid ≠ node_id := fun hh => h (hh ▸ List.mem_cons_self _ _)
        have hrest : nid ∉ assignedNodes fetch rest :=
          fun hh => h (List.mem_cons_of_mem _ hh)
        simp only [process_history_outputs, him, if_neg hemp]
        rw [ih _ _ hrest, dictGet_dictSet_ne _ _ _ _ hne]

/-- Every assigned node identifier is a key of the history outputs. -/
theorem assignedNodes_subset_keys (fetch : ImageRef → Option (List Nat))
    (outs : List (String × NodeOutput)) (nid : String)
    (h : nid ∈ assignedNodes fetch outs) : nid ∈ outs.map Prod.fst := by
  induction outs with
  | nil => simp [assignedNodes] at h
  | cons p rest ih =>
    obtain ⟨node_id, nout⟩ := p
    cases him : nout.images with
    | none =>
      simp only [assignedNodes, him] at h
      exact List.mem_cons_of_mem _ (ih h)
    | some images =>
      by_cases hemp : (images.filterMap fetch).isEmpty
      · simp only [assignedNodes, him, if_pos hemp] at h
        exact List.mem_cons_of_mem _ (ih h)
      · simp only [assignedNodes, him, if_neg hemp] at h
        rcases List.mem_cons.mp h with h1 | h1
        · simp [h1]
        · exact List.mem_cons_of_mem _ (ih h1)

/- Claim theorems. -/

/-- Claim C1: an executing frame whose data carries the tracked prompt id and
a null node makes the completion check return true and terminates the receive
loop at that frame; an executing frame with a non-null node, or with a
non-matching prompt id, makes the completion check return false and the loop
continues with its terminal state unchanged. -/
theorem C1_executing_completion (d : MsgData) (pid : String)
    (rest : List RecvEvent) (rok : Bool) :
    (d.prompt_id = some pid → d.node = none →
      is_execution_complete (execFrame d) pid = true ∧
      websocket_receive_loop pid rok (.frame (execFrame d) :: rest)
        = ⟨.completed, 0, 1⟩)
    ∧ (d.node ≠ none ∨ d.prompt_id ≠ some pid →
      is_execution_complete (execFrame d) pid = false ∧
      websocket_receive_loop pid rok (.frame (execFrame d) :: rest)
        = bump (websocket_receive_loop pid rok rest)) := by
  constructor
  · intro h1 h2
    refine ⟨by simp [is_execution_complete, execFrame, h1, h2],
      ws_loop_terminal pid d rest rok h1 h2⟩
  · intro h
    have hc : is_execution_complete (execFrame d) pid = false := by
      simp [is_execution_complete, execFrame, Option.isNone_iff_eq_none]
      intro h1
      rcases h with h2 | h2
      · exact Option.ne_none_iff_isSome.mp h2
      · exact absurd h1 h2
    have hp : websocket_process_message false (execFrame d) pid = none := rfl
    exact ⟨hc, by simp [websocket_receive_loop, hp, hc]⟩

/-- Witness for C1 at concrete frames: a terminal executing frame for prompt
p completes the loop; an executing frame for node 3 does not. -/
theorem C1_executing_completion_witness :
    (is_execution_complete (execFrame { prompt_id := some "p", node := none })
        "p" = true ∧
      websocket_receive_loop "p" true
          [.frame (execFrame { prompt_id := some "p", node := none })]
        = ⟨.completed, 0, 1⟩)
    ∧ (is_execution_complete
        (execFrame { prompt_id := some "p", node := some "3" }) "p" = false ∧
      websocket_receive_loop "p" true
          [.frame (execFrame { prompt_id := some "p", node := some "3" })]
        = bump (websocket_receive_loop "p" true [])) :=
  ⟨(C1_executing_completion { prompt_id := some "p", node := none } "p" [] true).1
      rfl rfl,
   (C1_executing_completion { prompt_id := some "p", node := some "3" } "p" [] true).2
      (Or.inl (by decide))⟩

/-- Counterexample to claim C2: with history available in the environment, a
run of the standalone client that receives an execution_error event ends with
the failure raised and historyFetched still false, so the history record is
not fetched before the error propagates. -/
theorem C2_history_not_fetched_counterexample :
    (webscoket_execute_workflow .production "p" demoEnv
        [.frame (errorFrame
          { prompt_id := some "p", exception_message := some "boom" })]).historyFetched
      = false
    ∧ (webscoket_execute_workflow .production "p" demoEnv
        [.frame (errorFrame
          { prompt_id := some "p", exception_message := some "boom" })]).outcome
      = .err (.runtimeError "执行错误: boom")
    ∧ demoEnv.history.isSome = true :=
  ⟨by decide, by decide, by decide⟩

/-- Claim C2 as amended: an execution_error event observed during the run
raises a RuntimeError with a non-empty message immediately from the dispatch;
the receive loop aborts after that single frame and the failure propagates
without any history fetch (no reconciliation attempt precedes the error). -/
theorem C2_execution_error_immediate (policy : MessageHandlingPolicy)
    (pid : String) (d : MsgData) (rest : List RecvEvent) (env : Env) :
    webscoket_execute_workflow policy pid env (.frame (errorFrame d) :: rest)
      = ⟨.err (.runtimeError (execution_error_message d)), 0, false, 1⟩
    ∧ execution_error_message d ≠ "" := by
  have hp : webscoket_process_message policy (errorFrame d) pid
      = some (.runtimeError (execution_error_message d)) := by
    cases policy <;> rfl
  exact ⟨by simp only [webscoket_execute_workflow, webscoket_receive_loop, hp,
      webscoket_finish_run],
    execution_error_message_ne_empty d⟩

/-- Claim C3: the TimeoutError that wait_for_queue_empty raises on an
exceeded max_wait is caught by the except clause of the same loop, so over
any poll sequence that stays at or above the admission floor the wait keeps
polling and never surfaces a timeout; the second conjunct shows the body does
reach the raise at elapsed 3 with max_wait 2 and a busy snapshot. -/
theorem C3_queue_wait_timeout_swallowed :
    (∀ (min_queue_num : Nat) (max_wait : Option Nat)
      (trace : List (Nat × PollResult)),
      (∀ ep ∈ trace, pollBusy min_queue_num ep.2 = true) →
      wait_for_queue_empty min_queue_num max_wait trace = .stillWaiting)
    ∧ wait_iter_body 3 (some 2) 3 (.ok 1 4) = .raisedTimeout := by
  constructor
  · intro min_queue_num max_wait trace h
    induction trace with
    | nil => rfl
    | cons ep rest ih =>
      have hb := h ep (List.mem_cons_self ep rest)
      have hrest : ∀ x ∈ rest, pollBusy min_queue_num x.2 = true :=
        fun x hx => h x (List.mem_cons_of_mem ep hx)
      obtain ⟨elapsed, p⟩ := ep
      cases p with
      | pollError =>
        simp only [wait_for_queue_empty, wait_iter_body]
        exact ih hrest
      | ok running pending =>
        simp only [pollBusy, decide_eq_true_eq] at hb
        have hlt : ¬ (running + pending < min_queue_num) := by omega
        simp only [wait_for_queue_empty, wait_iter_body, if_neg hlt]
        by_cases ht :
            (pyTruthyNat max_wait && decide (max_wait.getD 0 < elapsed)) = true
        · simp only [if_pos ht]
          exact ih hrest
        · simp only [if_neg ht]
          exact ih hrest
  · decide

/-- Witness for C3 at the scenario-D input: admission floor 3, max_wait 2,
every snapshot 1 running plus 4 pending, polls at elapsed 0, 1, 3 and 4
seconds: the wait is still polling after the deadline has passed. -/
theorem C3_queue_wait_timeout_swallowed_witness :
    wait_for_queue_empty 3 (some 2)
        [(0, .ok 1 4), (1, .ok 1 4), (3, .ok 1 4), (4, .ok 1 4)]
      = .stillWaiting :=
  C3_queue_wait_timeout_swallowed.1 3 (some 2) _ (by decide)

/-- Counterexample to claim C4: an execution_error event, and likewise an
execution_interrupted event, whose payload names a different prompt id is
not ignored: the dispatch raises a RuntimeError. -/
theorem C4_foreign_error_counterexample :
    handle_json_message .production
        ⟨some "execution_error",
         { prompt_id := some "other", exception_message := some "boom" }⟩ "mine"
      = some (.runtimeError "执行错误: boom")
    ∧ handle_json_message .production
        ⟨some "execution_interrupted", { prompt_id := some "other" }⟩ "mine"
      = some (.runtimeError "执行被中断") :=
  ⟨by decide, by decide⟩

/-- Claim C4 as amended: a structured event whose payload names a different
prompt id is ignored (no state change, nothing raised) for every recognized
kind except execution_error and execution_interrupted, which raise without
consulting the prompt id, and except a progress event with a zero max
divisor, which raises a division error whenever it is observed. -/
theorem C4_foreign_events_ignored (policy : MessageHandlingPolicy)
    (s : String) (t : JsonMessageType) (d : MsgData) (pid : String)
    (hof : JsonMessageType.ofString? s = some t)
    (_hpid : d.prompt_id ≠ some pid)
    (he : t ≠ .execution_error) (hi : t ≠ .execution_interrupted)
    (hp : t = .progress → d.max.getD 100 ≠ 0) :
    handle_json_message policy ⟨some s, d⟩ pid = none := by
  simp only [handle_json_message, hof]
  by_cases ho : policy.observes t = true
  · simp only [ho, if_true]
    cases t with
    | status => rfl
    | execution_start => rfl
    | execution_cached => rfl
    | executing => rfl
    | executed => rfl
    | progress => simp [handle_progress, hp rfl]
    | progress_state => rfl
    | execution_error => exact absurd rfl he
    | execution_interrupted => exact absurd rfl hi
    | execution_success => rfl
  · simp [ho]

/-- Witness for C4 as amended: an executing event for another prompt id is
dispatched to no effect under the development policy. -/
theorem C4_foreign_events_ignored_witness :
    handle_json_message .development
        ⟨some "executing", { prompt_id := some "other", node := some "5" }⟩
        "mine"
      = none :=
  C4_foreign_events_ignored .development "executing" .executing
    { prompt_id := some "other", node := some "5" } "mine" rfl (by decide)
    (by decide) (by decide) (fun h => nomatch h)

/-- Claim C5: a submission ticket carrying a truthy per-node error map or a
truthy top-level error makes execute_workflow of the typed client raise a
RuntimeError at once: no receive event is consumed, no reconnect happens and
no history is fetched, so no execution is tracked for the rejected job. -/
theorem C5_ticket_errors_reject (ticket : APIWorkflowTicket) (pid : String)
    (env : Env) (trace : List RecvEvent)
    (h : (!ticket.node_errors.isEmpty) = true ∨ pyTruthyStr ticket.error = true) :
    (websocket_execute_workflow ticket pid env trace).framesConsumed = 0 ∧
    (websocket_execute_workflow ticket pid env trace).historyFetched = false ∧
    (websocket_execute_workflow ticket pid env trace).reconnects = 0 ∧
    (websocket_execute_workflow ticket pid env trace).outcome.isRuntimeError
      = true := by
  rcases h with h | h
  · simp [websocket_execute_workflow, h, RunOutcome.isRuntimeError]
  · by_cases hn : (!ticket.node_errors.isEmpty) = true
    · simp [websocket_execute_workflow, hn, RunOutcome.isRuntimeError]
    · simp only [Bool.not_eq_true] at hn
      simp [websocket_execute_workflow, hn, h, RunOutcome.isRuntimeError]

/-- Witness for C5: a ticket with one node error rejects the run with zero
receive events consumed, even though a terminal frame was available. -/
theorem C5_ticket_errors_reject_witness :
    (websocket_execute_workflow ⟨[("3", "invalid input")], none⟩ "p" demoEnv
        [.frame (execFrame { prompt_id := some "p", node := none })]).framesConsumed
      = 0 ∧
    (websocket_execute_workflow ⟨[("3", "invalid input")], none⟩ "p" demoEnv
        [.frame (execFrame { prompt_id := some "p", node := none })]).historyFetched
      = false ∧
    (websocket_execute_workflow ⟨[("3", "invalid input")], none⟩ "p" demoEnv
        [.frame (execFrame { prompt_id := some "p", node := none })]).reconnects
      = 0 ∧
    (websocket_execute_workflow ⟨[("3", "invalid input")], none⟩ "p" demoEnv
        [.frame (execFrame
          { prompt_id := some "p", node := none })]).outcome.isRuntimeError
      = true :=
  C5_ticket_errors_reject ⟨[("3", "invalid input")], none⟩ "p" demoEnv
    [.frame (execFrame { prompt_id := some "p", node := none })]
    (Or.inl (by decide))

/-- Claim C6 (the code falls short of it): when the stream drops exactly
once (after a prefix of timeout sentinels) and the terminal executing frame
follows, the typed client does perform exactly one reconnect and the receive
loop completes, and a failed reconnect propagates as the typed
WorkflowConnectionError; but the run never completes successfully: after
every completed loop the membership test on the pydantic history model
fails, so execute_workflow raises ValueError whatever the server history
holds, and a successful outcome is unreachable. -/
theorem C6_reconnect_once_success_unreachable (pre rest : List RecvEvent)
    (pid : String) (d : MsgData) (env : Env)
    (hpre : ∀ e ∈ pre, e = RecvEvent.timeoutSentinel)
    (h1 : d.prompt_id = some pid) (h2 : d.node = none)
    (hok : env.reconnectOk = true) :
    (websocket_receive_loop pid true
        (pre ++ RecvEvent.connectionClosed :: .frame (execFrame d) :: rest)
      = ⟨.completed, 1, pre.length + 2⟩)
    ∧ ((websocket_execute_workflow {} pid env
        (pre ++ RecvEvent.connectionClosed :: .frame (execFrame d) :: rest)).reconnects
      = 1)
    ∧ ((websocket_execute_workflow {} pid env
        (pre ++ RecvEvent.connectionClosed ::
          .frame (execFrame d) :: rest)).historyFetched = true)
    ∧ ((websocket_execute_workflow {} pid env
        (pre ++ RecvEvent.connectionClosed :: .frame (execFrame d) :: rest)).outcome
      = .err (.valueError ("Prompt ID " ++ pid ++ " 不存在于历史记录中")))
    ∧ ((websocket_execute_workflow {} pid env
        (pre ++ RecvEvent.connectionClosed ::
          .frame (execFrame d) :: rest)).outcome.isOk = false)
    ∧ (∀ rest2 : List RecvEvent,
        websocket_receive_loop pid false (RecvEvent.connectionClosed :: rest2)
          = ⟨.reconnectFailed .workflowConnectionError, 1, 1⟩)
    ∧ (∀ rest2 : List RecvEvent,
        (websocket_execute_workflow {} pid { env with reconnectOk := false }
          (RecvEvent.connectionClosed :: rest2)).outcome
        = .err .workflowConnectionError) := by
  have hloop := ws_loop_scenario_c pre pid d rest hpre h1 h2
  refine ⟨hloop, ?_, ?_, ?_, ?_, fun rest2 => rfl, fun rest2 => rfl⟩
  · simp [websocket_execute_workflow, pyTruthyStr, hok, hloop,
      websocket_finish_run]
  · simp [websocket_execute_workflow, pyTruthyStr, hok, hloop,
      websocket_finish_run]
  · simp [websocket_execute_workflow, pyTruthyStr, hok, hloop,
      websocket_finish_run]
  · simp [websocket_execute_workflow, pyTruthyStr, hok, hloop,
      websocket_finish_run, RunOutcome.isOk]

/-- Witness for C6: one timeout, one dropped connection, then the terminal
frame, in the demonstration environment whose history does contain the entry
for node 9: the loop reconnects once and completes, yet the run ends in the
ValueError, not in a successful outcome. -/
theorem C6_reconnect_once_success_unreachable_witness :
    (websocket_receive_loop "p" true
        ([RecvEvent.timeoutSentinel] ++ RecvEvent.connectionClosed ::
          .frame (execFrame { prompt_id := some "p", node := none }) :: [])
      = ⟨.completed, 1, [RecvEvent.timeoutSentinel].length + 2⟩)
    ∧ ((websocket_execute_workflow {} "p" demoEnv
        ([RecvEvent.timeoutSentinel] ++ RecvEvent.connectionClosed ::
          .frame (execFrame { prompt_id := some "p", node := none }) :: [])).reconnects
      = 1)
    ∧ ((websocket_execute_workflow {} "p" demoEnv
        ([RecvEvent.timeoutSentinel] ++ RecvEvent.connectionClosed ::
          .frame (execFrame
            { prompt_id := some "p", node := none }) :: [])).historyFetched = true)
    ∧ ((websocket_execute_workflow {} "p" demoEnv
        ([RecvEvent.timeoutSentinel] ++ RecvEvent.connectionClosed ::
          .frame (execFrame { prompt_id := some "p", node := none }) :: [])).outcome
      = .err (.valueError ("Prompt ID " ++ "p" ++ " 不存在于历史记录中")))
    ∧ ((websocket_execute_workflow {} "p" demoEnv
        ([RecvEvent.timeoutSentinel] ++ RecvEvent.connectionClosed ::
          .frame (execFrame
            { prompt_id := some "p", node := none }) :: [])).outcome.isOk = false)
    ∧ (∀ rest2 : List RecvEvent,
        websocket_receive_loop "p" false (RecvEvent.connectionClosed :: rest2)
          = ⟨.reconnectFailed .workflowConnectionError, 1, 1⟩)
    ∧ (∀ rest2 : List RecvEvent,
        (websocket_execute_workflow {} "p" { demoEnv with reconnectOk := false }
          (RecvEvent.connectionClosed :: rest2)).outcome
        = .err .workflowConnectionError) :=
  C6_reconnect_once_success_unreachable [RecvEvent.timeoutSentinel] [] "p"
    { prompt_id := some "p", node := none } demoEnv (by decide) rfl rfl rfl

/-- Counterexample to claim C7: node 9 already holds stream-obtained bytes in
the accumulated outputs, yet reconciliation still fetches its history
reference and the fetched bytes replace the stream bytes in the merged
result. -/
theorem C7_stream_bytes_replaced_counterexample :
    process_history_outputs demoFetch [("9", ⟨some [demoRef]⟩)]
        [("9", [[1, 2]])] []
      = ⟨[("9", [[99]])], [demoRef]⟩
    ∧ [[99]] ≠ [[1, 2]] :=
  ⟨by decide, by decide⟩

/-- Claim C7 as amended: reconciliation attempts a fetch for every artifact
reference of every history node bearing an images list, regardless of what
the accumulated outputs already hold; an entry of the accumulated outputs is
preserved unchanged exactly when no history fetch for its node succeeds, and
a node listed once in history whose fetches succeed ends up mapped to the
history-fetched bytes, replacing any stream-obtained entry. -/
theorem C7_history_merge_amended (fetch : ImageRef → Option (List Nat))
    (outs : List (String × NodeOutput))
    (init : List (String × List (List Nat))) (facc : List ImageRef) :
    ((process_history_outputs fetch outs init facc).fetched
      = facc ++ (outs.filterMap (fun p => p.2.images)).flatten)
    ∧ (∀ nid : String, nid ∉ assignedNodes fetch outs →
        dictGet? (process_history_outputs fetch outs init facc).output_images nid
          = dictGet? init nid)
    ∧ (∀ (pre post : List (String × NodeOutput)) (nid : String)
        (refs : List ImageRef),
        nid ∉ post.map Prod.fst →
        ¬ (refs.filterMap fetch).isEmpty = true →
        dictGet? (process_history_outputs fetch
            (pre ++ (nid, ⟨some refs⟩) :: post) init facc).output_images nid
          = some (refs.filterMap fetch)) := by
  refine ⟨?_, fun nid h => process_history_preserve fetch outs init facc nid h, ?_⟩
  · induction outs generalizing init facc with
    | nil => simp [process_history_outputs]
    | cons p rest ih =>
      obtain ⟨nid, nout⟩ := p
      cases him : nout.images with
      | none => simp [process_history_outputs, him, ih]
      | some images => simp [process_history_outputs, him, ih]
  · intro pre post nid refs hpost hne
    rw [process_history_append]
    simp only [process_history_outputs, if_neg hne]
    have hpost2 : nid ∉ assignedNodes fetch post :=
      fun hh => hpost (assignedNodes_subset_keys fetch post nid hh)
    rw [process_history_preserve _ _ _ _ _ hpost2, dictGet_dictSet_self]

/-- Witness for C7 as amended: node 7 (absent from history) keeps its stream
bytes, and history node 9 is assigned its successfully fetched bytes. -/
theorem C7_history_merge_amended_witness :
    (dictGet? (process_history_outputs demoFetch [("9", ⟨some [demoRef]⟩)]
        [("7", [[5]])] []).output_images "7"
      = dictGet? [("7", [[5]])] "7")
    ∧ (dictGet? (process_history_outputs demoFetch
        ([] ++ ("9", ⟨some [demoRef]⟩) :: []) [("7", [[5]])] []).output_images "9"
      = some ([demoRef].filterMap demoFetch)) :=
  ⟨(C7_history_merge_amended demoFetch [("9", ⟨some [demoRef]⟩)]
      [("7", [[5]])] []).2.1 "7" (by decide),
   (C7_history_merge_amended demoFetch [("9", ⟨some [demoRef]⟩)]
      [("7", [[5]])] []).2.2 [] [] "9" [demoRef] (by decide) (by decide)⟩

/-- Claim C8: a binary frame shorter than 4 bytes is classified too short in
either mode; a recognized tag-2 frame whose payload falls short of its
declared metadata-length prefix, and a recognized tag-3 frame whose payload
falls short of its declared node-id-length prefix, classify as incomplete;
and processing any binary frame through either client raises nothing and
leaves the run state unchanged. -/
theorem C8_malformed_binary_safe (production : Bool) (msg : List Nat)
    (policy : MessageHandlingPolicy) (pid : String) :
    (msg.length < 4 → handle_binary_message production msg = .tooShort) ∧
    (4 ≤ msg.length → beU32 (msg.take 4) = 2 →
      (msg.drop 4).length < 4 + beU32 ((msg.drop 4).take 4) →
      handle_binary_message false msg = .incompleteMetadata) ∧
    (4 ≤ msg.length → beU32 (msg.take 4) = 3 →
      (msg.drop 4).length < 4 + beU32 ((msg.drop 4).take 4) →
      handle_binary_message false msg = .incompleteText) ∧
    webscoket_process_message policy (.binary msg) pid = none ∧
    websocket_process_message production (.binary msg) pid = none := by
  refine ⟨?_, ?_, ?_, rfl, rfl⟩
  · intro h
    simp [handle_binary_message, h]
  · intro h4 htag hshort
    have hnotlt : ¬ msg.length < 4 := by omega
    simp only [handle_binary_message, if_neg hnotlt, htag,
      BinaryMessageType.ofNat?]
    simp only [List.length_drop] at hshort
    simp [handle_metadata_preview_image]
    omega
  · intro h4 htag hshort
    have hnotlt : ¬ msg.length < 4 := by omega
    simp only [handle_binary_message, if_neg hnotlt, htag,
      BinaryMessageType.ofNat?]
    simp only [List.length_drop] at hshort
    simp [handle_text_message]
    omega

/-- Witness for C8: a 3-byte frame, a tag-2 frame declaring 5 metadata bytes
but carrying only 1 after the prefix, and a tag-3 frame declaring 9 node-id
bytes but carrying only 1 after the prefix. -/
theorem C8_malformed_binary_safe_witness :
    handle_binary_message true [0, 0, 7] = .tooShort
    ∧ handle_binary_message false [0, 0, 0, 2, 0, 0, 0, 5, 65]
      = .incompleteMetadata
    ∧ handle_binary_message false [0, 0, 0, 3, 0, 0, 0, 9, 65]
      = .incompleteText :=
  ⟨(C8_malformed_binary_safe true [0, 0, 7] .production "p").1 (by decide),
   (C8_malformed_binary_safe false [0, 0, 0, 2, 0, 0, 0, 5, 65] .production
      "p").2.1 (by decide) (by decide) (by decide),
   (C8_malformed_binary_safe false [0, 0, 0, 3, 0, 0, 0, 9, 65] .production
      "p").2.2.1 (by decide) (by decide) (by decide)⟩

/-- Counterexample to claim C9: a trace holding a progress event with max 0
followed by the terminal executing frame completes under the production
policy but raises a ZeroDivisionError under the development policy, so the
two policies do not yield the same run outcome on every frame sequence. -/
theorem C9_policy_divergence_counterexample :
    ((webscoket_execute_workflow .development "p" demoEnv
        [.frame (.text (some ⟨some "progress", { value := some 1, max := some 0 }⟩)),
         .frame (execFrame { prompt_id := some "p", node := none })]).outcome
      = .err .zeroDivisionError)
    ∧ ((webscoket_execute_workflow .production "p" demoEnv
        [.frame (.text (some ⟨some "progress", { value := some 1, max := some 0 }⟩)),
         .frame (execFrame { prompt_id := some "p", node := none })]).outcome
      = .ok [("9", [[99]])])
    ∧ ((webscoket_execute_workflow .development "p" demoEnv
        [.frame (.text (some ⟨some "progress", { value := some 1, max := some 0 }⟩)),
         .frame (execFrame { prompt_id := some "p", node := none })]).outcome
      ≠ (webscoket_execute_workflow .production "p" demoEnv
        [.frame (.text (some ⟨some "progress", { value := some 1, max := some 0 }⟩)),
         .frame (execFrame { prompt_id := some "p", node := none })]).outcome) :=
  ⟨by decide, by decide, by decide⟩

/-- Claim C9 as amended: on every trace whose progress events all carry a
nonzero max divisor, the standalone client computes the identical run summary
under the development and the production policy; the four terminal-signal
kinds are observed by both policies; and progress and progress_state events
are discarded to no effect under the production policy, while under the
development policy they also leave the dispatch without effect whenever the
progress divisor is nonzero. -/
theorem C9_policy_equivalence_amended :
    (∀ (pid : String) (env : Env) (trace : List RecvEvent),
      (∀ e ∈ trace, progressMaxOk e = true) →
      webscoket_execute_workflow .development pid env trace
        = webscoket_execute_workflow .production pid env trace)
    ∧ (∀ t : JsonMessageType,
        t = .executing ∨ t = .execution_error ∨ t = .execution_interrupted ∨
          t = .execution_success →
        MessageHandlingPolicy.production.observes t = true ∧
          MessageHandlingPolicy.development.observes t = true)
    ∧ (∀ (d : MsgData) (pid : String),
        handle_json_message .production ⟨some "progress", d⟩ pid = none ∧
        handle_json_message .production ⟨some "progress_state", d⟩ pid = none ∧
        handle_json_message .development ⟨some "progress_state", d⟩ pid = none ∧
        (d.max.getD 100 ≠ 0 →
          handle_json_message .development ⟨some "progress", d⟩ pid = none)) := by
  refine ⟨?_, ?_, ?_⟩
  · intro pid env trace h
    unfold webscoket_execute_workflow
    rw [receive_loop_policy_eq pid env.reconnectOk trace h]
  · intro t ht
    rcases ht with h | h | h | h <;> subst h <;> exact ⟨by decide, by decide⟩
  · intro d pid
    have hof : JsonMessageType.ofString? "progress" = some .progress := rfl
    refine ⟨rfl, rfl, rfl, fun h0 => ?_⟩
    simp [handle_json_message, hof, MessageHandlingPolicy.observes,
      MessageHandlingPolicy.value, handle_progress, h0]

/-- Witness for C9 as amended: on a progress-safe trace (one progress event
with the default max, then the terminal frame) both policies compute the
same run summary. -/
theorem C9_policy_equivalence_amended_witness :
    webscoket_execute_workflow .development "p" demoEnv
        [.frame (.text (some ⟨some "progress", { value := some 1 }⟩)),
         .frame (execFrame { prompt_id := some "p", node := none })]
      = webscoket_execute_workflow .production "p" demoEnv
        [.frame (.text (some ⟨some "progress", { value := some 1 }⟩)),
         .frame (execFrame { prompt_id := some "p", node := none })] :=
  C9_policy_equivalence_amended.1 "p" demoEnv
    [.frame (.text (some ⟨some "progress", { value := some 1 }⟩)),
     .frame (execFrame { prompt_id := some "p", node := none })] (by decide)

/-- Claim C10: starting from the empty accumulated outputs of one run, every
node identifier present in the reconciled output mapping is bound to a
nonempty list of byte blobs: nodes without image entries, and nodes whose
every fetch fails, are omitted rather than bound to an empty list. -/
theorem C10_outputs_nonempty (fetch : ImageRef → Option (List Nat))
    (outs : List (String × NodeOutput)) :
    ((process_history_outputs fetch outs [] []).output_images.all
      (fun p => !p.2.isEmpty)) = true :=
  process_history_all_nonempty fetch outs [] [] rfl
